import Mathlib

/-!
Verification of the Chili3d SVG conversion engine
(`packages/chili-builder/src/svgConverter.ts`) against its natural-language
specification.

The TypeScript source is shallowly embedded below.  Coordinates are modelled
as rationals (`ℚ`): all arithmetic the converter performs on coordinates
(negation, doubling, subtraction, the 2/3 degree-elevation factors, squared
distances) is exact real arithmetic in the spec's reading, and `ℚ` gives a
computable, decidable carrier for it.  External collaborators (the
`svg-pathdata` grammar parser, the geometry kernel's `line`/`bezier`/`wire`
factories, the DOM parser) are not part of the repository source; they are
modelled as explicit inputs (oracles), exactly as the converter observes
them: the kernel calls return a success/failure verdict per call, the
grammar parse either yields a command list or throws with a message.
-/

/-- `XYZ` from chili-core as used by the converter: an immutable coordinate
triple.  The converter only ever builds planar points (z = 0). -/
structure XYZ where
  x : ℚ
  y : ℚ
  z : ℚ
deriving DecidableEq, Repr

/-- The absolute-coordinate path command vocabulary produced by
`new SVGPathData(d).toAbs().commands` (svg-pathdata), as consumed by
`convertPathToEdges`.  `unknownCmd` stands for any command tag not handled
by the `switch` (it falls into the `default:` branch of the source). -/
inductive PathCmd where
  | moveTo (x y : ℚ)
  | lineTo (x y : ℚ)
  | horizLineTo (x : ℚ)
  | vertLineTo (y : ℚ)
  | curveTo (x1 y1 x2 y2 x y : ℚ)
  | smoothCurveTo (x2 y2 x y : ℚ)
  | quadTo (x1 y1 x y : ℚ)
  | smoothQuadTo (x y : ℚ)
  | arc (rx ry xRot : ℚ) (largeArcFlag sweepFlag : Bool) (x y : ℚ)
  | closePath
  | unknownCmd (tag : Nat)
deriving DecidableEq, Repr

/-- A curve primitive handed to the external wire builder (an `IEdge` in the
source; we record the construction arguments of the kernel call that
produced it). -/
inductive IEdge where
  | line (s e : XYZ)
  | bezier (pts : List XYZ)
deriving DecidableEq, Repr

/-- The external geometry kernel (`document.application.shapeFactory`):
each `line`/`bezier` call independently succeeds or fails; the converter
only observes the verdict, so the kernel is modelled as a pair of verdict
functions. -/
structure ShapeFactory where
  lineOk : XYZ → XYZ → Bool
  bezierOk : List XYZ → Bool

/-- The kernel in which every construction succeeds. -/
def factoryAllOk : ShapeFactory := ⟨fun _ _ => true, fun _ => true⟩

/-- Whether a given kernel accepts (successfully constructs) a given
primitive. -/
def acceptsEdge (f : ShapeFactory) : IEdge → Bool
  | .line a b => f.lineOk a b
  | .bezier pts => f.bezierOk pts

/-- The interpreter's per-path mutable state (`currentPoint`,
`pathStartPoint`, `lastControlPoint` in `convertPathToEdges`). -/
structure InterpState where
  currentPoint : XYZ
  pathStartPoint : XYZ
  lastControlPoint : Option XYZ
deriving DecidableEq, Repr

/-- The state at the top of `convertPathToEdges`: current point and sub-path
start at the origin, no last control point. -/
def initState : InterpState := ⟨⟨0, 0, 0⟩, ⟨0, 0, 0⟩, none⟩

/-- `CP1 = P0 + 2/3 * (P1 - P0)` of `quadraticToCubic` (z pinned to 0, as
in the source). -/
def quadCp1 (p0 p1 : XYZ) : XYZ :=
  ⟨p0.x + (2 / 3) * (p1.x - p0.x), p0.y + (2 / 3) * (p1.y - p0.y), 0⟩

/-- `CP2 = P2 + 2/3 * (P1 - P2)` of `quadraticToCubic` (z pinned to 0, as
in the source). -/
def quadCp2 (p1 p2 : XYZ) : XYZ :=
  ⟨p2.x + (2 / 3) * (p1.x - p2.x), p2.y + (2 / 3) * (p1.y - p2.y), 0⟩

/-- `quadraticToCubic(p0, p1, p2)`: degree elevation of a quadratic Bezier
to a cubic, returning `[P0, CP1, CP2, P2]`. -/
def quadraticToCubic (p0 p1 p2 : XYZ) : List XYZ :=
  [p0, quadCp1 p0 p1, quadCp2 p1 p2, p2]

/-- The control-point reflection appearing in the `SMOOTH_CURVE_TO` and
`SMOOTH_QUAD_TO` branches: `lastControlPoint` present gives
`(2*current.x - last.x, 2*current.y - last.y, 0)`, absent gives
`currentPoint` itself. -/
def reflectControl (currentPoint : XYZ) (lastControlPoint : Option XYZ) : XYZ :=
  match lastControlPoint with
  | some l => ⟨2 * currentPoint.x - l.x, 2 * currentPoint.y - l.y, 0⟩
  | none => currentPoint

/-- Squared Euclidean distance.  The source's `CLOSE_PATH` branch compares
`Math.sqrt(dx^2 + dy^2 + dz^2) > 0.001`; since `sqrt` is strictly monotone
on nonnegative reals, this is equivalent to the squared comparison
`dx^2 + dy^2 + dz^2 > 0.001^2`, which is how the guard is embedded. -/
def distSq (a b : XYZ) : ℚ :=
  (a.x - b.x) ^ 2 + (a.y - b.y) ^ 2 + (a.z - b.z) ^ 2

/-- One iteration of the `for (const cmd of commands)` loop of
`convertPathToEdges`: from the current state and one command, the new state
and the (zero or one) edges pushed by that iteration.  Each branch mirrors
the corresponding `case` of the source `switch`; a kernel construction
whose verdict is negative pushes nothing. -/
def stepCmd (f : ShapeFactory) (s : InterpState) : PathCmd → InterpState × List IEdge
  | .moveTo x y =>
      let p : XYZ := ⟨x, -y, 0⟩
      (⟨p, p, none⟩, [])
  | .lineTo x y =>
      let lineEnd : XYZ := ⟨x, -y, 0⟩
      (⟨lineEnd, s.pathStartPoint, none⟩,
        if f.lineOk s.currentPoint lineEnd then [.line s.currentPoint lineEnd] else [])
  | .horizLineTo x =>
      let hLineEnd : XYZ := ⟨x, s.currentPoint.y, 0⟩
      (⟨hLineEnd, s.pathStartPoint, none⟩,
        if f.lineOk s.currentPoint hLineEnd then [.line s.currentPoint hLineEnd] else [])
  | .vertLineTo y =>
      let vLineEnd : XYZ := ⟨s.currentPoint.x, -y, 0⟩
      (⟨vLineEnd, s.pathStartPoint, none⟩,
        if f.lineOk s.currentPoint vLineEnd then [.line s.currentPoint vLineEnd] else [])
  | .curveTo x1 y1 x2 y2 x y =>
      let cp1 : XYZ := ⟨x1, -y1, 0⟩
      let cp2 : XYZ := ⟨x2, -y2, 0⟩
      let curveEnd : XYZ := ⟨x, -y, 0⟩
      (⟨curveEnd, s.pathStartPoint, some cp2⟩,
        if f.bezierOk [s.currentPoint, cp1, cp2, curveEnd] then
          [.bezier [s.currentPoint, cp1, cp2, curveEnd]]
        else [])
  | .smoothCurveTo x2 y2 x y =>
      let scp1 := reflectControl s.currentPoint s.lastControlPoint
      let scp2 : XYZ := ⟨x2, -y2, 0⟩
      let sCurveEnd : XYZ := ⟨x, -y, 0⟩
      (⟨sCurveEnd, s.pathStartPoint, some scp2⟩,
        if f.bezierOk [s.currentPoint, scp1, scp2, sCurveEnd] then
          [.bezier [s.currentPoint, scp1, scp2, sCurveEnd]]
        else [])
  | .quadTo x1 y1 x y =>
      let qcp : XYZ := ⟨x1, -y1, 0⟩
      let qEnd : XYZ := ⟨x, -y, 0⟩
      let cubicPoints := quadraticToCubic s.currentPoint qcp qEnd
      (⟨qEnd, s.pathStartPoint, some qcp⟩,
        if f.bezierOk cubicPoints then [.bezier cubicPoints] else [])
  | .smoothQuadTo x y =>
      let sqcp := reflectControl s.currentPoint s.lastControlPoint
      let sqEnd : XYZ := ⟨x, -y, 0⟩
      let sqCubicPoints := quadraticToCubic s.currentPoint sqcp sqEnd
      (⟨sqEnd, s.pathStartPoint, some sqcp⟩,
        if f.bezierOk sqCubicPoints then [.bezier sqCubicPoints] else [])
  | .arc _ _ _ _ _ x y =>
      let arcEnd : XYZ := ⟨x, -y, 0⟩
      (⟨arcEnd, s.pathStartPoint, none⟩,
        if f.lineOk s.currentPoint arcEnd then [.line s.currentPoint arcEnd] else [])
  | .closePath =>
      (⟨s.pathStartPoint, s.pathStartPoint, none⟩,
        if distSq s.currentPoint s.pathStartPoint > (1 / 1000) ^ 2 then
          if f.lineOk s.currentPoint s.pathStartPoint then
            [.line s.currentPoint s.pathStartPoint]
          else []
        else [])
  | .unknownCmd _ => (s, [])

/-- The whole command loop of `convertPathToEdges`: fold `stepCmd` over the
command list, accumulating pushed edges in order. -/
def runCmds (f : ShapeFactory) : InterpState → List PathCmd → InterpState × List IEdge
  | s, [] => (s, [])
  | s, c :: cs =>
      let r := stepCmd f s c
      let rest := runCmds f r.1 cs
      (rest.1, r.2 ++ rest.2)

/-- `convertPathToEdges`: the upstream grammar parse
(`new SVGPathData(pathData).toAbs()`) either throws — surfaced as
`Result.err` with the `Path conversion error:` prefix — or yields a command
list, which the loop interprets from a fresh `initState`; the loop itself
always returns `Result.ok` with the accumulated edges. -/
def convertPathToEdges (f : ShapeFactory) :
    Except String (List PathCmd) → Except String (List IEdge)
  | .error e => .error ("Path conversion error: " ++ e)
  | .ok cmds => .ok (runCmds f initState cmds).2

/-- Separator characters of the `points` tokenization: the source splits on
the regex `[\s,]+`; whitespace is modelled by its common members (space,
tab, line feed, carriage return) plus the comma. -/
def isSepChar (c : Char) : Bool :=
  c = ' ' || c = '\t' || c = '\n' || c = '\r' || c = ','

/-- Split a character list into maximal runs of non-separator characters
(`acc` holds the current run, reversed).  This is
`points.trim().split(/[\s,]+/).filter(p => p.length > 0)`: splitting on
separator runs and discarding empty fragments makes the leading `trim`
immaterial to the resulting token list. -/
def splitTokens : List Char → List Char → List String
  | [], acc => if acc.isEmpty then [] else [String.mk acc.reverse]
  | c :: cs, acc =>
      if isSepChar c then
        (if acc.isEmpty then [] else [String.mk acc.reverse]) ++ splitTokens cs []
      else splitTokens cs (c :: acc)

/-- The token list `pairs` computed by `polylineToPath` from the raw
`points` attribute. -/
def tokenize (s : String) : List String := splitTokens s.data []

/-- The `for (let i = 2; i < pairs.length; i += 2)` loop body of
`polylineToPath`, expressed structurally: each remaining complete token
pair appends one ` L x,y` segment; a trailing unpaired token appends
nothing. -/
def lineSegs : List String → String
  | a :: b :: rest => " L " ++ a ++ "," ++ b ++ lineSegs rest
  | _ => ""

/-- `polylineToPath` applied to an already-tokenized `points` attribute:
fewer than 2 tokens gives the empty string, otherwise `M t0,t1` followed
by one ` L` segment per further complete pair. -/
def buildPolylinePath : List String → String
  | a :: b :: rest => "M " ++ a ++ "," ++ b ++ lineSegs rest
  | _ => ""

/-- `polylineToPath(element)`: tokenize the `points` attribute and build the
`M`/`L` path string. -/
def polylineToPath (points : String) : String :=
  buildPolylinePath (tokenize points)

/-- `polygonToPath(element)`: the polyline path with a trailing ` Z` when
non-empty (the source's truthiness test `polylinePath ? ... : ""`). -/
def polygonToPath (points : String) : String :=
  let p := polylineToPath points
  if p = "" then "" else p ++ " Z"

/-- JavaScript whitespace test used by `String.prototype.trim`, modelled by
its common members. -/
def isWsChar (c : Char) : Bool :=
  c = ' ' || c = '\t' || c = '\n' || c = '\r'

/-- Drop leading whitespace characters. -/
def dropLeadingWs : List Char → List Char
  | [] => []
  | c :: cs => if isWsChar c then dropLeadingWs cs else c :: cs

/-- `s.trim()`: drop leading and trailing whitespace. -/
def jsTrim (s : String) : String :=
  String.mk ((dropLeadingWs ((dropLeadingWs s.data).reverse)).reverse)

/-- JavaScript `a || b` on a nullable string: `null` and `""` are falsy. -/
def jsOr (a : Option String) (b : String) : String :=
  match a with
  | some s => if s = "" then b else s
  | none => b

/-- The element types recognized by `convertFromSVG`, in its fixed
enumeration order. -/
inductive ElemKind where
  | path | rect | circle | ellipse | line | polyline | polygon
deriving DecidableEq, Repr, BEq

/-- One SVG element as the converter observes it.  `dAttr` is the `d`
attribute (for `path` elements; `none` when absent), `pointsAttr` the
`points` attribute (for `polyline`/`polygon`), `idAttr`/`dataNameAttr` the
naming attributes.  `shapePath` abstracts the output of the
`rect`/`circle`/`ellipse`/`line` reducers (`rectToPath` etc.): those
reducers format floating-point attribute values into template strings, and
no claim under verification depends on their content, so the produced
string is carried as an input field. -/
structure SvgElem where
  dAttr : Option String
  pointsAttr : Option String
  shapePath : String
  idAttr : Option String
  dataNameAttr : Option String
deriving DecidableEq, Repr

/-- The per-element path-data resolution of the orchestrator loop:
`d` attribute for `path` elements, else `convertBasicShapeToPath`. -/
def resolvePathData (e : SvgElem) : ElemKind → Option String
  | .path => e.dAttr
  | .rect => some e.shapePath
  | .circle => some e.shapePath
  | .ellipse => some e.shapePath
  | .line => some e.shapePath
  | .polyline => some (polylineToPath (jsOr e.pointsAttr ""))
  | .polygon => some (polygonToPath (jsOr e.pointsAttr ""))

/-- The external collaborators of one conversion run: the geometry kernel,
the `svg-pathdata` grammar parse (throwing = `.error`), and the wire
builder's verdict on an edge list. -/
structure Env where
  factory : ShapeFactory
  parse : String → Except String (List PathCmd)
  wireOk : List IEdge → Bool

/-- How the orchestrator loop body disposes of one element: skipped with
empty path data (no interpreter call), failed in `convertPathToEdges`
(`failCount++`), skipped with zero edges, failed in wire creation
(`failCount++`), or added to the folder as a shape. -/
inductive ElemOutcome where
  | skippedEmpty
  | failedParse (err : String)
  | skippedNoEdges
  | failedWire
  | success (edges : List IEdge)
deriving DecidableEq, Repr

/-- The body of the `allElements.forEach` loop in `convertFromSVG`, for one
element: resolve path data, skip if missing/blank, interpret, skip on zero
edges, build the wire, and classify the outcome. -/
def processElement (env : Env) (e : SvgElem) (k : ElemKind) : ElemOutcome :=
  match resolvePathData e k with
  | none => .skippedEmpty
  | some pd =>
      if jsTrim pd = "" then .skippedEmpty
      else
        match convertPathToEdges env.factory (env.parse pd) with
        | .error err => .failedParse err
        | .ok edges =>
            if edges.length = 0 then .skippedNoEdges
            else if env.wireOk edges then .success edges
            else .failedWire

/-- `element.getAttribute("id") || element.getAttribute("data-name") ||
`Element ${elementIndex}``. -/
def elementName (e : SvgElem) (idx : Nat) : String :=
  jsOr e.idAttr (jsOr e.dataNameAttr ("Element " ++ toString idx))

/-- The whole `forEach` loop: each element is processed in order,
`elementIndex` is incremented first (so names are 1-based positions in the
combined list), and the outcome recorded; no outcome stops the loop. -/
def processAll (env : Env) : List (SvgElem × ElemKind) → Nat → List (String × ElemOutcome)
  | [], _ => []
  | (e, k) :: rest, idx =>
      (elementName e (idx + 1), processElement env e k) :: processAll env rest (idx + 1)

/-- The shape nodes added to the `folder` group: one named shape per
element whose outcome was `success`. -/
def importShapes (env : Env) (elems : List (SvgElem × ElemKind)) (idx : Nat) :
    List (String × List IEdge) :=
  (processAll env elems idx).filterMap fun p =>
    match p.2 with
    | .success edges => some (p.1, edges)
    | _ => none

/-- The parsed SVG document as `convertFromSVG` observes it through the DOM:
whether the DOM parser reported a `parsererror`, and the per-type element
lists returned by `querySelectorAll` (each in document order). -/
structure SvgDoc where
  parserError : Bool
  paths : List SvgElem
  rects : List SvgElem
  circles : List SvgElem
  ellipses : List SvgElem
  lineElems : List SvgElem
  polylines : List SvgElem
  polygons : List SvgElem

/-- The `allElements` array of `convertFromSVG`: the seven per-type lists
concatenated in the fixed enumeration order, each element tagged with its
type. -/
def allElements (d : SvgDoc) : List (SvgElem × ElemKind) :=
  d.paths.map (fun e => (e, ElemKind.path)) ++
  d.rects.map (fun e => (e, ElemKind.rect)) ++
  d.circles.map (fun e => (e, ElemKind.circle)) ++
  d.ellipses.map (fun e => (e, ElemKind.ellipse)) ++
  d.lineElems.map (fun e => (e, ElemKind.line)) ++
  d.polylines.map (fun e => (e, ElemKind.polyline)) ++
  d.polygons.map (fun e => (e, ElemKind.polygon))

/-- `convertFromSVG`: fail on a DOM `parsererror`; fail when no supported
element was found; otherwise run the per-element loop and fail only when
the resulting folder is empty.  (The timestamped debug log appended to
error messages is presentation only and is not modelled.) -/
def convertFromSVG (env : Env) (d : SvgDoc) : Except String (List (String × List IEdge)) :=
  if d.parserError then .error "Invalid SVG file"
  else if (allElements d).length = 0 then .error "No supported SVG elements found"
  else
    let shapes := importShapes env (allElements d) 0
    if shapes.length = 0 then .error "No valid paths could be imported"
    else .ok shapes

/-- Evaluation of a quadratic Bezier with control points `p0, p1, p2` at
parameter `t` (Bernstein form), used to state the elevation contract. -/
def evalQuad (p0 p1 p2 : XYZ) (t : ℚ) : XYZ :=
  ⟨(1 - t) ^ 2 * p0.x + 2 * (1 - t) * t * p1.x + t ^ 2 * p2.x,
   (1 - t) ^ 2 * p0.y + 2 * (1 - t) * t * p1.y + t ^ 2 * p2.y,
   (1 - t) ^ 2 * p0.z + 2 * (1 - t) * t * p1.z + t ^ 2 * p2.z⟩

/-- Evaluation of a cubic Bezier with control points `p0, p1, p2, p3` at
parameter `t` (Bernstein form). -/
def evalCubic (p0 p1 p2 p3 : XYZ) (t : ℚ) : XYZ :=
  ⟨(1 - t) ^ 3 * p0.x + 3 * (1 - t) ^ 2 * t * p1.x + 3 * (1 - t) * t ^ 2 * p2.x + t ^ 3 * p3.x,
   (1 - t) ^ 3 * p0.y + 3 * (1 - t) ^ 2 * t * p1.y + 3 * (1 - t) * t ^ 2 * p2.y + t ^ 3 * p3.y,
   (1 - t) ^ 3 * p0.z + 3 * (1 - t) ^ 2 * t * p1.z + 3 * (1 - t) * t ^ 2 * p2.z + t ^ 3 * p3.z⟩

/-- Modelled from the spec: the `svg-pathdata` grammar parser is an external
dependency (not under `src/`); per the spec's data model, parsing the
reducer's output string `"M t0,t1 L t2,t3 …"` yields the absolute `MoveTo`
followed by one `LineTo` per further complete coordinate pair.  `vals` is
the list of numeric values of the tokens, in order; a trailing unpaired
value corresponds to a token the reducer never emitted into the string. -/
def lineCmdsOfVals : List ℚ → List PathCmd
  | a :: b :: rest => .lineTo a b :: lineCmdsOfVals rest
  | _ => []

/-- Modelled from the spec: the command sequence obtained by grammar-parsing
`polylineToPath`'s output when the numeric values of the tokens are
`vals` — empty for fewer than 2 values, else one `MoveTo` and the `LineTo`
sequence of the remaining pairs (mirroring `buildPolylinePath`). -/
def polylineParsedCmds : List ℚ → List PathCmd
  | a :: b :: rest => .moveTo a b :: lineCmdsOfVals rest
  | _ => []

/-- Whether an edge is a `Line` primitive. -/
def isLineEdge : IEdge → Bool
  | .line _ _ => true
  | .bezier _ => false

/-- The state component of one step does not depend on the kernel's
verdicts: every `case` computes the new state before and independently of
the `isOk` test. -/
lemma stepCmd_fst_indep (f g : ShapeFactory) (s : InterpState) (c : PathCmd) :
    (stepCmd f s c).1 = (stepCmd g s c).1 := by
  cases c <;> rfl

/-- The edges pushed by one step are exactly the step's candidate edges
(those pushed under the all-succeeding kernel) that the kernel accepts. -/
lemma stepCmd_snd_filter (f : ShapeFactory) (s : InterpState) (c : PathCmd) :
    (stepCmd f s c).2 = ((stepCmd factoryAllOk s c).2).filter (acceptsEdge f) := by
  cases c <;>
    simp only [stepCmd, factoryAllOk, if_true] <;>
    (try split) <;>
    (try split) <;>
    simp_all [List.filter_singleton, List.filter_nil, acceptsEdge]

/-- The interpreter's state trajectory does not depend on the kernel. -/
lemma runCmds_fst_indep (f g : ShapeFactory) :
    ∀ (cmds : List PathCmd) (s : InterpState),
      (runCmds f s cmds).1 = (runCmds g s cmds).1
  | [], _ => rfl
  | c :: cs, s => by
      simp only [runCmds]
      rw [stepCmd_fst_indep f g s c]
      exact runCmds_fst_indep f g cs _

/-- The interpreter's output under an arbitrary kernel is the filtered
output of the all-succeeding kernel: a failed construction omits exactly
that primitive. -/
lemma runCmds_snd_filter (f : ShapeFactory) :
    ∀ (cmds : List PathCmd) (s : InterpState),
      (runCmds f s cmds).2 = ((runCmds factoryAllOk s cmds).2).filter (acceptsEdge f)
  | [], _ => rfl
  | c :: cs, s => by
      simp only [runCmds, List.filter_append]
      rw [stepCmd_snd_filter f s c, stepCmd_fst_indep f factoryAllOk s c,
        runCmds_snd_filter f cs _]

/-- C10: for every command sequence the interpreter's tracked state
(currentPoint, subpathStartPoint, lastControlPoint) after any prefix — a
prefix being itself a command list — is identical regardless of which
kernel constructions succeed, and the outputs differ only in which
primitives appear: each kernel's output is the accepted sublist of the
all-succeeding kernel's output. -/
theorem interp_state_kernel_independent (f1 f2 : ShapeFactory) (s : InterpState)
    (cmds : List PathCmd) :
    (runCmds f1 s cmds).1 = (runCmds f2 s cmds).1 ∧
    (runCmds f1 s cmds).2 = ((runCmds factoryAllOk s cmds).2).filter (acceptsEdge f1) :=
  ⟨runCmds_fst_indep f1 f2 cmds s, runCmds_snd_filter f1 cmds s⟩

/-- C3: interpretation of a successfully parsed command sequence always
returns Ok; the interpreter returns an error exactly when the upstream
grammar parse throws (surfacing the message); an unknown command tag is
skipped, changing neither state nor output; and a failed kernel
construction omits exactly that one primitive (per-step, the pushed edges
are the accepted candidates and the state does not depend on the
verdict). -/
theorem interpreter_never_fails (f : ShapeFactory) (cmds : List PathCmd)
    (msg : String) (s : InterpState) (tag : Nat) (c : PathCmd) :
    (∃ edges, convertPathToEdges f (.ok cmds) = .ok edges) ∧
    convertPathToEdges f (.error msg) = .error ("Path conversion error: " ++ msg) ∧
    stepCmd f s (.unknownCmd tag) = (s, []) ∧
    (stepCmd f s c).2 = ((stepCmd factoryAllOk s c).2).filter (acceptsEdge f) ∧
    (stepCmd f s c).1 = (stepCmd factoryAllOk s c).1 :=
  ⟨⟨_, rfl⟩, rfl, rfl, stepCmd_snd_filter f s c, stepCmd_fst_indep f factoryAllOk s c⟩

/-- C4: a ClosePath command sets currentPoint to subpathStartPoint and
clears lastControlPoint in all cases; when the distance from currentPoint
to subpathStartPoint exceeds 1e-3 (equivalently, the squared distance
exceeds (1/1000)^2) exactly one Line(currentPoint, subpathStartPoint) is
emitted, otherwise none — stated under the all-succeeding kernel, an
individual kernel failure omitting the line being the general filter
conjunct. -/
theorem closePath_emission (f : ShapeFactory) (s : InterpState) :
    (stepCmd f s .closePath).1 = ⟨s.pathStartPoint, s.pathStartPoint, none⟩ ∧
    (stepCmd factoryAllOk s .closePath).2 =
      (if distSq s.currentPoint s.pathStartPoint > (1 / 1000) ^ 2 then
        [IEdge.line s.currentPoint s.pathStartPoint]
      else []) ∧
    (stepCmd f s .closePath).2 =
      ((stepCmd factoryAllOk s .closePath).2).filter (acceptsEdge f) :=
  ⟨rfl, rfl, stepCmd_snd_filter f s .closePath⟩

/-- C5: the smooth-cubic reflected first control point is
2·currentPoint − lastControlPoint componentwise (x and y; z stays 0, all
points of this core being planar) when lastControlPoint is present, and
currentPoint itself when absent; and a SmoothCubicCurveTo immediately
following a CubicCurveTo whose (mapped) second control point is
(x2, -y2, 0) emits the cubic whose first control point is exactly
2·current − that control point. -/
theorem smooth_cubic_reflection (c l : XYZ) (f : ShapeFactory) (s : InterpState)
    (x1 y1 x2 y2 x y a2 b2 a b : ℚ) :
    (reflectControl c (some l)).x = 2 * c.x - l.x ∧
    (reflectControl c (some l)).y = 2 * c.y - l.y ∧
    (reflectControl c (some l)).z = 0 ∧
    reflectControl c none = c ∧
    (stepCmd factoryAllOk ((stepCmd f s (.curveTo x1 y1 x2 y2 x y)).1)
        (.smoothCurveTo a2 b2 a b)).2 =
      [IEdge.bezier [⟨x, -y, 0⟩,
        ⟨2 * x - x2, 2 * (-y) - (-y2), 0⟩,
        ⟨a2, -b2, 0⟩, ⟨a, -b, 0⟩]] :=
  ⟨rfl, rfl, rfl, rfl, rfl⟩

/-- C2 (amended): lastControlPoint is set by each of the four curve
commands — to the mapped second/only control point for CubicCurveTo,
SmoothCubicCurveTo and QuadraticCurveTo, and to the reflected control
point for SmoothQuadraticCurveTo — cleared by MoveTo, LineTo, H, V, Arc
and ClosePath, and left untouched by an unsupported command.  It is not
cleared across curve families: a SmoothQuadraticCurveTo immediately
following a cubic CurveTo with mapped second control point (x2, -y2, 0)
stores (and reflects through) 2·current − that control point, not
currentPoint. -/
theorem lastControlPoint_per_command (f : ShapeFactory) (s : InterpState)
    (x y x1 y1 x2 y2 rx ry rot : ℚ) (la sw : Bool) (tag : Nat) (xq yq xt yt : ℚ) :
    ((stepCmd f s (.moveTo x y)).1.lastControlPoint = none) ∧
    ((stepCmd f s (.lineTo x y)).1.lastControlPoint = none) ∧
    ((stepCmd f s (.horizLineTo x)).1.lastControlPoint = none) ∧
    ((stepCmd f s (.vertLineTo y)).1.lastControlPoint = none) ∧
    ((stepCmd f s (.arc rx ry rot la sw x y)).1.lastControlPoint = none) ∧
    ((stepCmd f s .closePath).1.lastControlPoint = none) ∧
    ((stepCmd f s (.curveTo x1 y1 x2 y2 x y)).1.lastControlPoint = some ⟨x2, -y2, 0⟩) ∧
    ((stepCmd f s (.smoothCurveTo x2 y2 x y)).1.lastControlPoint = some ⟨x2, -y2, 0⟩) ∧
    ((stepCmd f s (.quadTo x1 y1 x y)).1.lastControlPoint = some ⟨x1, -y1, 0⟩) ∧
    ((stepCmd f s (.smoothQuadTo x y)).1.lastControlPoint =
        some (reflectControl s.currentPoint s.lastControlPoint)) ∧
    ((stepCmd f s (.unknownCmd tag)).1.lastControlPoint = s.lastControlPoint) ∧
    ((stepCmd f ((stepCmd f s (.curveTo x1 y1 x2 y2 xq yq)).1)
        (.smoothQuadTo xt yt)).1.lastControlPoint =
      some ⟨2 * xq - x2, 2 * (-yq) - (-y2), 0⟩) :=
  ⟨rfl, rfl, rfl, rfl, rfl, rfl, rfl, rfl, rfl, rfl, rfl, rfl⟩

/-- C2 (counterexample): after `M 0,0 C 0,0 1,1 3,0` the interpreter holds
currentPoint (3,0,0) and lastControlPoint (1,-1,0) (the mapped cubic
control point), so the immediately following SmoothQuadraticCurveTo —
whose preceding command is cubic-family — reflects to (5,1,0), which is
not currentPoint, contradicting the claim that the reflection degenerates
to currentPoint across curve families. -/
theorem smoothQuad_after_cubic_cex :
    (runCmds factoryAllOk initState
        [.moveTo 0 0, .curveTo 0 0 1 1 3 0]).1.currentPoint = ⟨3, 0, 0⟩ ∧
    (runCmds factoryAllOk initState
        [.moveTo 0 0, .curveTo 0 0 1 1 3 0]).1.lastControlPoint = some ⟨1, -1, 0⟩ ∧
    (runCmds factoryAllOk initState
        [.moveTo 0 0, .curveTo 0 0 1 1 3 0, .smoothQuadTo 6 0]).1.lastControlPoint
      = some ⟨5, 1, 0⟩ ∧
    reflectControl (⟨3, 0, 0⟩ : XYZ) (some ⟨1, -1, 0⟩) ≠ (⟨3, 0, 0⟩ : XYZ) := by
  refine ⟨?_, ?_, ?_, ?_⟩ <;>
    norm_num [runCmds, stepCmd, reflectControl, initState, factoryAllOk, XYZ.mk.injEq]

/-- Componentwise point addition, for stating the spec's elevation formula
`cp1 = p0 + 2/3·(p1 − p0)`. -/
def xyzAdd (a b : XYZ) : XYZ := ⟨a.x + b.x, a.y + b.y, a.z + b.z⟩

/-- Componentwise point subtraction. -/
def xyzSub (a b : XYZ) : XYZ := ⟨a.x - b.x, a.y - b.y, a.z - b.z⟩

/-- Scalar multiple of a point. -/
def xyzSmul (k : ℚ) (a : XYZ) : XYZ := ⟨k * a.x, k * a.y, k * a.z⟩

/-- C6: for all (planar) points p0, p1, p2, `quadraticToCubic` returns
`(p0, cp1, cp2, p2)` with `cp1 = p0 + 2/3·(p1 − p0)` and
`cp2 = p2 + 2/3·(p1 − p2)`; the resulting cubic at parameters 0 and 1
yields p0 and p2 exactly; and at 1/2 it matches the quadratic exactly
(difference 0, hence within the claimed 1e-9 tolerance on every
component). -/
theorem quadraticToCubic_elevation (p0x p0y p1x p1y p2x p2y : ℚ) :
    quadraticToCubic ⟨p0x, p0y, 0⟩ ⟨p1x, p1y, 0⟩ ⟨p2x, p2y, 0⟩ =
      [⟨p0x, p0y, 0⟩,
        xyzAdd ⟨p0x, p0y, 0⟩ (xyzSmul (2 / 3) (xyzSub ⟨p1x, p1y, 0⟩ ⟨p0x, p0y, 0⟩)),
        xyzAdd ⟨p2x, p2y, 0⟩ (xyzSmul (2 / 3) (xyzSub ⟨p1x, p1y, 0⟩ ⟨p2x, p2y, 0⟩)),
        ⟨p2x, p2y, 0⟩] ∧
    evalCubic ⟨p0x, p0y, 0⟩ (quadCp1 ⟨p0x, p0y, 0⟩ ⟨p1x, p1y, 0⟩)
        (quadCp2 ⟨p1x, p1y, 0⟩ ⟨p2x, p2y, 0⟩) ⟨p2x, p2y, 0⟩ 0 = ⟨p0x, p0y, 0⟩ ∧
    evalCubic ⟨p0x, p0y, 0⟩ (quadCp1 ⟨p0x, p0y, 0⟩ ⟨p1x, p1y, 0⟩)
        (quadCp2 ⟨p1x, p1y, 0⟩ ⟨p2x, p2y, 0⟩) ⟨p2x, p2y, 0⟩ 1 = ⟨p2x, p2y, 0⟩ ∧
    |(evalCubic ⟨p0x, p0y, 0⟩ (quadCp1 ⟨p0x, p0y, 0⟩ ⟨p1x, p1y, 0⟩)
        (quadCp2 ⟨p1x, p1y, 0⟩ ⟨p2x, p2y, 0⟩) ⟨p2x, p2y, 0⟩ (1 / 2)).x -
      (evalQuad ⟨p0x, p0y, 0⟩ ⟨p1x, p1y, 0⟩ ⟨p2x, p2y, 0⟩ (1 / 2)).x| ≤ 1 / 1000000000 ∧
    |(evalCubic ⟨p0x, p0y, 0⟩ (quadCp1 ⟨p0x, p0y, 0⟩ ⟨p1x, p1y, 0⟩)
        (quadCp2 ⟨p1x, p1y, 0⟩ ⟨p2x, p2y, 0⟩) ⟨p2x, p2y, 0⟩ (1 / 2)).y -
      (evalQuad ⟨p0x, p0y, 0⟩ ⟨p1x, p1y, 0⟩ ⟨p2x, p2y, 0⟩ (1 / 2)).y| ≤ 1 / 1000000000 ∧
    |(evalCubic ⟨p0x, p0y, 0⟩ (quadCp1 ⟨p0x, p0y, 0⟩ ⟨p1x, p1y, 0⟩)
        (quadCp2 ⟨p1x, p1y, 0⟩ ⟨p2x, p2y, 0⟩) ⟨p2x, p2y, 0⟩ (1 / 2)).z -
      (evalQuad ⟨p0x, p0y, 0⟩ ⟨p1x, p1y, 0⟩ ⟨p2x, p2y, 0⟩ (1 / 2)).z| ≤ 1 / 1000000000 := by
  refine ⟨?_, ?_, ?_, ?_, ?_, ?_⟩ <;>
    simp only [quadraticToCubic, quadCp1, quadCp2, xyzAdd, xyzSub, xyzSmul,
      evalCubic, evalQuad, XYZ.mk.injEq, List.cons.injEq, and_true, List.nil_eq] <;>
    ring_nf <;>
    norm_num

/-- Fewer than 2 tokens build the empty path string. -/
lemma buildPolylinePath_short (toks : List String) (h : toks.length < 2) :
    buildPolylinePath toks = "" := by
  match toks with
  | [] => rfl
  | [_] => rfl
  | _ :: _ :: _ => simp only [List.length_cons] at h; omega

/-- String length distributes over append. -/
lemma strLen_append (s t : String) : (s ++ t).length = s.length + t.length := by
  show (s.data ++ t.data).length = s.data.length + t.data.length
  exact List.length_append _ _

/-- Two or more tokens build a non-empty path string (it starts with
`M `). -/
lemma buildPolylinePath_ne (a b : String) (r : List String) :
    buildPolylinePath (a :: b :: r) ≠ "" := by
  intro hcontra
  have hl := congrArg String.length hcontra
  simp only [buildPolylinePath, strLen_append] at hl
  have h2 : ("M " : String).length = 2 := rfl
  have h1 : ("," : String).length = 1 := rfl
  have h0 : ("" : String).length = 0 := rfl
  omega

/-- A trivially succeeding environment: every kernel construction and wire
succeeds, and the grammar parse of any string yields a single MoveTo. -/
def envMoveOnly : Env :=
  ⟨factoryAllOk, fun _ => .ok [.moveTo 0 0], fun _ => true⟩

/-- C1 (amended): the reducer's guard is on the number of numeric *tokens*,
not coordinate pairs — for every polyline (and polygon) element whose
points attribute contains fewer than 2 numeric tokens (i.e. not even one
complete coordinate pair), the reducer returns the empty path string and
the orchestrator classifies the element skipped-empty, for every
environment (in particular without invoking the grammar parse or the
interpreter). -/
theorem polyline_short_points_skipped (env : Env) (e : SvgElem) (points : String)
    (hp : e.pointsAttr = some points) (hlen : (tokenize points).length < 2) :
    polylineToPath points = "" ∧
    polygonToPath points = "" ∧
    processElement env e .polyline = .skippedEmpty ∧
    processElement env e .polygon = .skippedEmpty := by
  have hb : polylineToPath points = "" := buildPolylinePath_short _ hlen
  have hg : polygonToPath points = "" := by simp [polygonToPath, hb]
  have hjs : polylineToPath (jsOr e.pointsAttr "") = "" := by
    rw [hp]
    by_cases h0 : points = ""
    · subst h0; simp [jsOr]; rfl
    · simpa [jsOr, h0] using hb
  have hjsg : polygonToPath (jsOr e.pointsAttr "") = "" := by
    simp [polygonToPath, hjs]
  have htrim : jsTrim "" = "" := rfl
  refine ⟨hb, hg, ?_, ?_⟩ <;>
    simp [processElement, resolvePathData, hjs, hjsg, htrim]

/-- C1 (witness): the whitespace-only points attribute `" "` has zero
tokens; both reducers return the empty string and the element is
skipped-empty. -/
theorem polyline_short_points_skipped_witness :
    (SvgElem.mk none (some " ") "" none none).pointsAttr = some " " ∧
    (tokenize " ").length < 2 ∧
    (polylineToPath " " = "" ∧
     polygonToPath " " = "" ∧
     processElement envMoveOnly (SvgElem.mk none (some " ") "" none none) .polyline
        = .skippedEmpty ∧
     processElement envMoveOnly (SvgElem.mk none (some " ") "" none none) .polygon
        = .skippedEmpty) :=
  ⟨rfl, by decide,
    polyline_short_points_skipped envMoveOnly _ " " rfl (by decide)⟩

/-- C1 (counterexample): the points attribute `"0,0"` holds exactly one
coordinate pair (2 tokens) — fewer than the 2 pairs the claim speaks of —
yet the reducer returns the non-empty path `"M 0,0"`, and the orchestrator
does invoke the interpreter on it: the element's outcome is
skipped-no-edges (reached only after `convertPathToEdges`), not
skipped-empty. -/
theorem polyline_single_pair_cex :
    (tokenize "0,0").length = 2 ∧
    polylineToPath "0,0" = "M 0,0" ∧
    ("M 0,0" : String) ≠ "" ∧
    processElement envMoveOnly (SvgElem.mk none (some "0,0") "" none none) .polyline
      = .skippedNoEdges ∧
    ElemOutcome.skippedNoEdges ≠ ElemOutcome.skippedEmpty := by
  refine ⟨by decide, by decide, by decide, ?_, by decide⟩
  decide

/-- Interpreting the LineTo tail of a parsed polyline path emits one Line
per complete coordinate pair, from any state, and nothing else. -/
lemma runCmds_lineCmds_count :
    ∀ (vals : List ℚ) (s : InterpState),
      ((runCmds factoryAllOk s (lineCmdsOfVals vals)).2.length = vals.length / 2) ∧
      (∀ e ∈ (runCmds factoryAllOk s (lineCmdsOfVals vals)).2, isLineEdge e = true)
  | [], _ => by simp [lineCmdsOfVals, runCmds]
  | [_], _ => by simp [lineCmdsOfVals, runCmds]
  | a :: b :: rest, s => by
      have ih := runCmds_lineCmds_count rest ⟨⟨a, -b, 0⟩, s.pathStartPoint, none⟩
      simp only [lineCmdsOfVals, runCmds, stepCmd, factoryAllOk, if_true,
        List.length_cons, List.length_append, List.singleton_append,
        List.mem_cons] at *
      refine ⟨?_, ?_⟩
      · rw [ih.1]; omega
      · rintro e (rfl | he)
        · rfl
        · exact ih.2 e he

/-- C7: for a polyline whose points attribute is a valid numeric token list
of even length at least 4 (values `vals`), the reducer's path string is
non-empty, and interpreting its parsed command sequence (one MoveTo, then
LineTo per pair) under an all-succeeding kernel yields only Line
primitives, exactly `vals.length / 2 - 1` of them. -/
theorem polyline_interp_line_count (points : String) (vals : List ℚ)
    (hlen : (tokenize points).length = vals.length)
    (heven : vals.length % 2 = 0) (hge : 4 ≤ vals.length) :
    polylineToPath points ≠ "" ∧
    (∀ e ∈ (runCmds factoryAllOk initState (polylineParsedCmds vals)).2,
        isLineEdge e = true) ∧
    (runCmds factoryAllOk initState (polylineParsedCmds vals)).2.length
      = vals.length / 2 - 1 := by
  rcases vals with _ | ⟨a, _ | ⟨b, rest⟩⟩
  · exact absurd hge (by simp)
  · exact absurd hge (by simp)
  refine ⟨?_, ?_, ?_⟩
  · match htoks : tokenize points with
    | [] => rw [htoks] at hlen; simp at hlen
    | [_] => rw [htoks] at hlen; simp at hlen
    | x :: y :: r =>
        unfold polylineToPath
        rw [htoks]
        exact buildPolylinePath_ne x y r
  · simp only [polylineParsedCmds, runCmds, stepCmd, List.nil_append]
    exact (runCmds_lineCmds_count rest _).2
  · simp only [polylineParsedCmds, runCmds, stepCmd, List.nil_append,
      List.length_cons]
    rw [(runCmds_lineCmds_count rest _).1]
    omega

/-- C7 (witness): the points attribute `"0,0 10,5"` has 4 tokens with
values [0, 0, 10, 5]; the reduced-and-parsed polyline interprets to
exactly 4/2 - 1 = 1 Line primitive. -/
theorem polyline_interp_line_count_witness :
    (tokenize "0,0 10,5").length = ([(0:ℚ), 0, 10, 5]).length ∧
    ([(0:ℚ), 0, 10, 5]).length % 2 = 0 ∧
    4 ≤ ([(0:ℚ), 0, 10, 5]).length ∧
    (polylineToPath "0,0 10,5" ≠ "" ∧
     (∀ e ∈ (runCmds factoryAllOk initState
          (polylineParsedCmds [(0:ℚ), 0, 10, 5])).2, isLineEdge e = true) ∧
     (runCmds factoryAllOk initState
        (polylineParsedCmds [(0:ℚ), 0, 10, 5])).2.length
       = ([(0:ℚ), 0, 10, 5]).length / 2 - 1) :=
  ⟨by decide, by decide, by decide,
    polyline_interp_line_count "0,0 10,5" [0, 0, 10, 5] (by decide) (by decide)
      (by decide)⟩

/-- Whether an overall conversion result is a failure. -/
def isErrResult {α : Type} : Except String α → Bool
  | .error _ => true
  | .ok _ => false

/-- The outcome sequence of the loop is the map of the per-element body
over the element list: every element is processed, and its outcome depends
only on that element (never on its neighbours' failures). -/
lemma processAll_snd (env : Env) :
    ∀ (elems : List (SvgElem × ElemKind)) (i : Nat),
      (processAll env elems i).map Prod.snd
        = elems.map (fun p => processElement env p.1 p.2)
  | [], _ => rfl
  | (e, k) :: rest, i => by
      simp [processAll, processAll_snd env rest (i + 1)]

/-- C8: the overall conversion fails exactly when a document-level
condition holds — a DOM parser error, zero recognized elements, or zero
shape nodes after processing every element — and element-level failures
are contained: the loop processes every element, each outcome a function
of that element alone, and when no document-level condition holds the
result is Ok with the successful shapes of the full element list. -/
theorem convert_fails_iff_document_condition (env : Env) (d : SvgDoc) :
    (isErrResult (convertFromSVG env d) = true ↔
      d.parserError = true ∨ allElements d = [] ∨
        importShapes env (allElements d) 0 = []) ∧
    ((processAll env (allElements d) 0).map Prod.snd
      = (allElements d).map (fun p => processElement env p.1 p.2)) ∧
    (d.parserError = false → allElements d ≠ [] →
      importShapes env (allElements d) 0 ≠ [] →
      convertFromSVG env d = .ok (importShapes env (allElements d) 0)) := by
  refine ⟨?_, processAll_snd env _ 0, ?_⟩
  · by_cases hp : d.parserError = true
    · simp [convertFromSVG, hp, isErrResult]
    · by_cases he : allElements d = []
      · simp [convertFromSVG, hp, he, isErrResult]
      · by_cases hs : importShapes env (allElements d) 0 = []
        · simp [convertFromSVG, hp, he, hs, isErrResult, List.length_eq_zero]
        · simp [convertFromSVG, hp, he, hs, isErrResult, List.length_eq_zero]
  · intro hp he hs
    unfold convertFromSVG
    simp only [hp, if_false, Bool.false_eq_true]
    rw [if_neg (fun h => he (List.length_eq_zero.mp h)),
      if_neg (fun h => hs (List.length_eq_zero.mp h))]

/-- The per-type element list of a parsed document. -/
def elemsOfKind (d : SvgDoc) : ElemKind → List SvgElem
  | .path => d.paths
  | .rect => d.rects
  | .circle => d.circles
  | .ellipse => d.ellipses
  | .line => d.lineElems
  | .polyline => d.polylines
  | .polygon => d.polygons

/-- Filtering a uniformly tagged block by a type keeps the whole block or
nothing. -/
lemma filter_tagged_block (xs : List SvgElem) (k0 k : ElemKind) :
    ((xs.map (fun e => (e, k0))).filter (fun p => decide (p.2 = k)))
      = if k0 = k then xs.map (fun e => (e, k0)) else [] := by
  induction xs with
  | nil => simp
  | cons a t ih =>
      by_cases h : k0 = k <;> simp [h, ih]

/-- C9: the orchestrator's element list is the seven per-type lists in the
fixed enumeration order path, rect, circle, ellipse, line, polyline,
polygon; projecting it onto any single type recovers exactly that type's
document-order list — document order is preserved within each type while
types are processed in blocks, not in document order across types. -/
theorem elements_grouped_by_type (d : SvgDoc) :
    allElements d =
      d.paths.map (fun e => (e, ElemKind.path)) ++
      d.rects.map (fun e => (e, ElemKind.rect)) ++
      d.circles.map (fun e => (e, ElemKind.circle)) ++
      d.ellipses.map (fun e => (e, ElemKind.ellipse)) ++
      d.lineElems.map (fun e => (e, ElemKind.line)) ++
      d.polylines.map (fun e => (e, ElemKind.polyline)) ++
      d.polygons.map (fun e => (e, ElemKind.polygon)) ∧
    ∀ k, (((allElements d).filter (fun p => decide (p.2 = k))).map Prod.fst)
      = elemsOfKind d k := by
  refine ⟨by simp [allElements], ?_⟩
  intro k
  cases k <;>
    simp [allElements, elemsOfKind, List.filter_append, filter_tagged_block,
      List.map_map, Function.comp_def]

/-- An environment whose grammar parse yields a single LineTo and in which
every kernel and wire construction succeeds. -/
def envLineOnly : Env :=
  ⟨factoryAllOk, fun _ => .ok [.lineTo 1 0], fun _ => true⟩

/-- A parsed document holding exactly one path element with a non-blank
`d` attribute. -/
def docOnePath : SvgDoc :=
  ⟨false, [⟨some "M 0,0 L 1,0", none, "", none, none⟩], [], [], [], [], [], []⟩

/-- C8 (witness): on a well-formed one-path document in a succeeding
environment, no document-level condition holds and the conversion returns
Ok with that element's shape. -/
theorem convert_fails_iff_document_condition_witness :
    docOnePath.parserError = false ∧
    allElements docOnePath ≠ [] ∧
    importShapes envLineOnly (allElements docOnePath) 0 ≠ [] ∧
    convertFromSVG envLineOnly docOnePath
      = .ok (importShapes envLineOnly (allElements docOnePath) 0) :=
  ⟨rfl, by decide, by decide,
    (convert_fails_iff_document_condition envLineOnly docOnePath).2.2 rfl
      (by decide) (by decide)⟩
